import Mathlib

/-!
Formal model of the YouTube Live Chat Analyzer (`app.py`).

The development shallowly embeds the two core components of the program —
the Chat Collector (three sources: remote paginated API, synthetic
generator, manual text parsing) and the Statistics Aggregator — together
with the control-flow skeleton of the Insight Generator
(`analyze_with_claude`).  Strings of message text are modelled as `List
Char` for the character-level parsing operations and as `String` in the
message records; machine `datetime` values are modelled as integer time
units (minutes).  External collaborators (the remote chat API, the
completion service, Python's randomized `hash`, `random`) are passed in as
explicit oracle parameters.
-/

/-- Characters treated as whitespace by Python's `str.strip`. -/
def pyIsSpace (c : Char) : Bool :=
  c = ' ' || c = '\t' || c = '\n' || c = '\r' || c = '\x0b' || c = '\x0c'

/-- Python's `str.strip()` on a character list: drop whitespace from both ends. -/
def pyStrip (s : List Char) : List Char :=
  ((s.dropWhile pyIsSpace).reverse.dropWhile pyIsSpace).reverse

/-- Python's `str.split('\n')` on a character list.  On the empty string Python
returns `[""]`, matching the `[[]]` base case. -/
def splitNewlines : List Char → List (List Char)
  | [] => [[]]
  | c :: cs =>
    if c = '\n' then [] :: splitNewlines cs
    else
      match splitNewlines cs with
      | [] => [[c]]
      | l :: ls => (c :: l) :: ls

/-- Membership test `':' in line`. -/
def hasColon (s : List Char) : Bool := s.contains ':'

/-- Python's `line.split(':', 1)`: the part before the first colon and the part
after it (the latter may itself contain colons). -/
def splitFirstColon : List Char → List Char × List Char
  | [] => ([], [])
  | c :: cs =>
    if c = ':' then ([], cs)
    else
      let p := splitFirstColon cs
      (c :: p.1, p.2)

/-- One chat message, as the dictionaries built by the collector.
`τ` is the timestamp representation: `String` (ISO text copied from the
API) for Source A, integer time units for Sources B and C. -/
structure MessageData (τ : Type) where
  author : String
  message : String
  timestamp : τ
  author_channel_id : String
  is_moderator : Bool
  is_owner : Bool
  is_verified : Bool
  message_type : String
  deriving Repr, DecidableEq

/-- The `author`/`message` pair computed for line `i` (0-based) of the
manual-input form: split on the first colon with both sides stripped, or a
synthesized `User<i+1>` author with the whole stripped line as message. -/
def manualLineParts (i : Nat) (line : List Char) : List Char × List Char :=
  if hasColon line then
    let parts := splitFirstColon line
    (pyStrip parts.1, pyStrip parts.2)
  else
    (("User" ++ toString (i + 1)).data, pyStrip line)

/-- The record built for line `i` of `L` total lines in
`collect_chat_manual_input`; `hashFn` models Python's process-randomized
`hash` on strings, `now` the collection time in minutes. -/
def manualRecord (hashFn : String → Nat) (now : Int) (L i : Nat)
    (author message : List Char) : MessageData Int :=
  { author := String.mk author
    message := String.mk message
    timestamp := now - (Int.ofNat L - Int.ofNat i)
    author_channel_id := "UC" ++ toString (hashFn (String.mk author) % 1000000)
    is_moderator := false
    is_owner := false
    is_verified := false
    message_type := "textMessageEvent" }

/-- The `for i, line in enumerate(lines)` loop of
`collect_chat_manual_input`: parse each line, drop it when the stripped
message is empty, otherwise append the record. -/
def manualLoop (hashFn : String → Nat) (now : Int) (L : Nat) :
    Nat → List (List Char) → List (MessageData Int)
  | _, [] => []
  | i, line :: rest =>
    let parts := manualLineParts i line
    let tail := manualLoop hashFn now L (i + 1) rest
    if parts.2 ≠ [] then manualRecord hashFn now L i parts.1 parts.2 :: tail
    else tail

/-- Model of `collect_chat_manual_input` (Source C): guard on non-empty form input,
strip the whole text, split into lines, then run the parsing loop. -/
def collect_chat_manual_input (hashFn : String → Nat) (input : String)
    (now : Int) : List (MessageData Int) :=
  if input = "" then []
  else
    let lines := splitNewlines (pyStrip input.data)
    manualLoop hashFn now lines.length 0 lines

/-- One element of a page's `items[]` array, with every field the source
treats as possibly absent modelled as an `Option`. -/
structure ApiItem where
  displayName : Option String
  displayMessage : Option String
  publishedAt : Option String
  channelId : Option String
  isChatModerator : Option Bool
  isChatOwner : Option Bool
  isVerified : Option Bool
  itemType : Option String
  deriving Repr, DecidableEq

/-- A JSON page response: `items` is `none` when the `'items'` key is
missing, `nextPageToken` is the optional continuation token (tokens are
modelled as naturals). -/
structure PageResponse where
  items : Option (List ApiItem)
  nextPageToken : Option Nat
  deriving Repr, DecidableEq

/-- A page source: given the optional continuation token and the
`maxResults` parameter, produce a response, or `none` when the transport
raises (the collector's `except` branch). -/
def PageSource : Type := Option Nat → Nat → Option PageResponse

/-- The `message_data` dictionary built from one API item
(`collect_chat_with_api`, body of the `for item in data['items']` loop),
with the `.get` defaults of the source. -/
def apiItemToMessage (it : ApiItem) : MessageData String :=
  { author := it.displayName.getD "Unknown"
    message := it.displayMessage.getD ""
    timestamp := it.publishedAt.getD ""
    author_channel_id := it.channelId.getD ""
    is_moderator := it.isChatModerator.getD false
    is_owner := it.isChatOwner.getD false
    is_verified := it.isVerified.getD false
    message_type := it.itemType.getD "textMessageEvent" }

/-- The `while len(messages) < max_messages` page loop of
`collect_chat_with_api`.  Returns the collected messages together with the
number of page requests issued.  `fuel` bounds the number of iterations so
the recursion is total; every claim is proved either for arbitrary fuel or
with fuel visibly large enough for the concrete source. -/
def collectLoop (src : PageSource) (maxMessages : Nat) :
    Nat → Option Nat → List (MessageData String) → Nat →
    List (MessageData String) × Nat
  | 0, _, acc, reqs => (acc, reqs)
  | fuel + 1, token, acc, reqs =>
    if acc.length < maxMessages then
      match src token (min 200 (maxMessages - acc.length)) with
      | none => (acc, reqs + 1)
      | some resp =>
        match resp.items with
        | none => (acc, reqs + 1)
        | some items =>
          let acc' := acc ++ items.map apiItemToMessage
          match resp.nextPageToken with
          | none => (acc', reqs + 1)
          | some t => collectLoop src maxMessages fuel (some t) acc' (reqs + 1)
    else (acc, reqs)

/-- Model of `collect_chat_with_api` (Source A): bail out with `[]` when the API key
is missing or the live-chat id cannot be resolved, otherwise run the page
loop starting from no token and an empty message list. -/
def collect_chat_with_api (hasApiKey : Bool) (chatId : Option String)
    (src : PageSource) (maxMessages fuel : Nat) :
    List (MessageData String) × Nat :=
  if hasApiKey then
    match chatId with
    | none => ([], 0)
    | some _ => collectLoop src maxMessages fuel none [] 0
  else ([], 0)

/-- The ten fixed author names of `simulate_chat_data`. -/
def sample_users : List String :=
  ["StreamFan123", "ChatMaster", "LiveViewer", "YouTubeUser", "VideoLover",
   "ChatBot2024", "StreamWatcher", "CommentKing", "ViewerPro", "ChatExpert"]

/-- The thirty fixed message templates of `simulate_chat_data`. -/
def sample_messages : List String :=
  ["Great stream!", "Love this content!", "When will the next stream be?",
   "Amazing work!", "Can you explain that again?", "First time watching!",
   "This is so helpful", "What software do you use?",
   "How long have you been streaming?", "Can you show that part again?",
   "Love the energy!", "New subscriber here!", "What's your favorite tool?",
   "This is exactly what I needed", "When did you start?",
   "Do you have a tutorial for this?", "Can you go slower?",
   "This is confusing", "Great explanation!", "What's next?",
   "How do I get started?", "Thanks for sharing!", "This is incredible",
   "Mind blown!", "So cool!", "Awesome content", "Keep it up!",
   "You're the best!", "Learning so much", "Great teacher"]

/-- Oracle for the `random` calls made while generating message `i` of
`simulate_chat_data`: index choices are reduced modulo the relevant range,
the two `random.random() < p` gates and the `random.choice([True, False])`
draws are booleans. -/
structure SimRand where
  userIdx : Nat → Nat
  msgIdx : Nat → Nat
  minuteOff : Nat → Nat
  chanId : Nat → Nat
  modGate : Nat → Bool
  modChoice : Nat → Bool
  verGate : Nat → Bool
  verChoice : Nat → Bool

/-- The record built for index `i` in `simulate_chat_data`'s loop. -/
def simRecord (rng : SimRand) (now : Int) (i : Nat) : MessageData Int :=
  { author := (sample_users.getD (rng.userIdx i % 10) "")
    message := (sample_messages.getD (rng.msgIdx i % 30) "")
    timestamp := now - (1 + Int.ofNat (rng.minuteOff i % 30))
    author_channel_id := "UC" ++ toString (100000 + rng.chanId i % 900000)
    is_moderator := if rng.modGate i then rng.modChoice i else false
    is_owner := false
    is_verified := if rng.verGate i then rng.verChoice i else false
    message_type := "textMessageEvent" }

/-- Model of `simulate_chat_data` (Source B): `num_messages` records built from the
fixed vocabularies and the randomness oracle. -/
def simulate_chat_data (rng : SimRand) (now : Int) (num_messages : Nat) :
    List (MessageData Int) :=
  (List.range num_messages).map (simRecord rng now)

/-- The distinct values of a list, each at its first occurrence, in order
of first appearance. -/
def firstOccs : List String → List String
  | [] => []
  | a :: rest => a :: (firstOccs rest).filter (· ≠ a)

/-- Stable descending insertion for `(value, count)` pairs: `x` goes in
front of the first entry with a strictly smaller count, so entries with
equal counts keep their relative order. -/
def insertDesc (x : String × Nat) :
    List (String × Nat) → List (String × Nat)
  | [] => [x]
  | y :: ys => if y.2 < x.2 then x :: y :: ys else y :: insertDesc x ys

/-- Model of `pandas.Series.value_counts()` on the author column: one
`(value, count)` pair per distinct value, sorted in descending order of
count.  pandas documents only the descending order; ties are modelled as
resolved stably by order of first appearance, the deterministic behaviour
of current pandas (stable sort over keys in first-appearance order). -/
def authorValueCounts (authors : List String) : List (String × Nat) :=
  ((firstOccs authors).map fun a => (a, authors.count a)).foldl
    (fun acc p => insertDesc p acc) []

/-- The summary dictionary built by `generate_chat_statistics` for a
non-empty input; averages are exact rationals (the Python floats carry no
rounding the claims depend on). -/
structure ChatStats where
  total_messages : Nat
  unique_users : Nat
  messages_per_user : ℚ
  moderator_messages : Nat
  owner_messages : Nat
  verified_messages : Nat
  top_chatters : List (String × Nat)
  message_length_avg : ℚ
  deriving Repr, DecidableEq

/-- Model of `generate_chat_statistics`: `none` models the bare `{}` returned for an
empty input (a dictionary with no fields), `some` the populated summary. -/
def generate_chat_statistics {τ : Type} (messages : List (MessageData τ)) :
    Option ChatStats :=
  if messages.isEmpty then none
  else
    let authors := messages.map (·.author)
    let nuniq := (firstOccs authors).length
    some
      { total_messages := messages.length
        unique_users := nuniq
        messages_per_user :=
          if 0 < nuniq then (messages.length : ℚ) / (nuniq : ℚ) else 0
        moderator_messages := messages.countP (·.is_moderator)
        owner_messages := messages.countP (·.is_owner)
        verified_messages := messages.countP (·.is_verified)
        top_chatters := (authorValueCounts authors).take 10
        message_length_avg :=
          if 0 < messages.length then
            ((messages.map fun m => (m.message.length : ℚ)).sum) /
              (messages.length : ℚ)
          else 0 }

/-- The newline-joined `"<author>: <message>"` transcript of the last 300
messages (`chat_text` in `analyze_with_claude`). -/
def chatTranscript {τ : Type} (messages : List (MessageData τ)) : String :=
  String.intercalate "\n"
    ((messages.drop (messages.length - 300)).map
      fun m => m.author ++ ": " ++ m.message)

/-- The `comprehensive` prompt template. -/
def comprehensivePrompt (ct : String) : String :=
  "Please analyze this YouTube live chat data and provide comprehensive insights:\n\n" ++
  "**Analysis Required:**\n" ++
  "1. **Key Themes & Topics**: What are the main subjects being discussed?\n" ++
  "2. **Most Frequent Questions**: What questions do viewers ask most often?\n" ++
  "3. **Sentiment & Mood**: What's the overall emotional tone and audience engagement level?\n" ++
  "4. **Notable Moments**: Any significant reactions, trending topics, or viral moments?\n" ++
  "5. **Community Engagement**: How is the audience interacting? Are there power users, moderators active?\n" ++
  "6. **Content Feedback**: What do viewers think about the content being streamed?\n\n" ++
  "**Chat Messages:**\n" ++ ct ++ "\n\n" ++
  "Please provide detailed insights with specific examples from the chat where relevant.\n"

/-- The `questions` prompt template. -/
def questionsPrompt (ct : String) : String :=
  "Please extract and analyze all the questions asked by viewers in this YouTube live chat.\n\n" ++
  "**Tasks:**\n" ++
  "1. **Identify Questions**: Find all direct and indirect questions\n" ++
  "2. **Categorize by Topic**: Group similar questions together\n" ++
  "3. **Frequency Analysis**: Which questions or question types appear most often?\n" ++
  "4. **Answer Status**: Which questions seem answered vs unanswered?\n" ++
  "5. **Question Quality**: Are questions technical, casual, or seeking clarification?\n\n" ++
  "**Chat Messages:**\n" ++ ct ++ "\n\n" ++
  "Format your response with clear categories and specific examples.\n"

/-- The `sentiment` prompt template. -/
def sentimentPrompt (ct : String) : String :=
  "Please analyze the emotional tone and sentiment of this YouTube live chat.\n\n" ++
  "**Analysis Focus:**\n" ++
  "1. **Overall Sentiment**: Positive, negative, or neutral tone?\n" ++
  "2. **Emotional Patterns**: Excitement, frustration, confusion, appreciation?\n" ++
  "3. **Engagement Level**: How actively engaged is the audience?\n" ++
  "4. **Community Vibe**: Supportive, critical, or mixed?\n" ++
  "5. **Mood Changes**: Any shifts in sentiment during the chat?\n" ++
  "6. **Standout Reactions**: Notable emotional responses or reactions?\n\n" ++
  "**Chat Messages:**\n" ++ ct ++ "\n\n" ++
  "Provide specific examples and explain the reasoning behind your sentiment analysis.\n"

/-- The `themes` prompt template. -/
def themesPrompt (ct : String) : String :=
  "Please identify and analyze the main themes and topics discussed in this YouTube live chat.\n\n" ++
  "**Analysis Goals:**\n" ++
  "1. **Primary Themes**: What are the 3-5 most discussed topics?\n" ++
  "2. **Trending Topics**: What subjects gained momentum during the chat?\n" ++
  "3. **Recurring Discussions**: What topics keep coming up repeatedly?\n" ++
  "4. **Topic Evolution**: How do conversations shift and develop?\n" ++
  "5. **Audience Interests**: What does the chat reveal about viewer preferences?\n" ++
  "6. **Content Alignment**: How well do chat topics align with the stream content?\n\n" ++
  "**Chat Messages:**\n" ++ ct ++ "\n\n" ++
  "Organize your response by theme and provide supporting evidence from the chat.\n"

/-- The `prompts` dictionary of `analyze_with_claude`, keyed by analysis
mode. -/
def prompts (ct : String) : List (String × String) :=
  [("comprehensive", comprehensivePrompt ct),
   ("questions", questionsPrompt ct),
   ("sentiment", sentimentPrompt ct),
   ("themes", themesPrompt ct)]

/-- Model of `analyze_with_claude`: the completion service is the oracle `call`
(`Except.error` models a raised exception).  The dictionary lookup
`prompts[analysis_type]` happens inside the same `try` block as the remote
call and before it, so an unknown mode raises `KeyError`, caught by the
same handler; `str(KeyError(k))` is the key in single quotes.  The boolean
result records whether the remote service was invoked. -/
def analyze_with_claude {τ : Type} (call : String → Except String String)
    (messages : List (MessageData τ)) (analysis_type : String) :
    String × Bool :=
  if messages.isEmpty then ("No messages to analyze", false)
  else
    match (prompts (chatTranscript messages)).lookup analysis_type with
    | none =>
      ("Error analyzing chat with Claude: " ++ "'" ++ analysis_type ++ "'",
        false)
    | some p =>
      match call p with
      | Except.ok t => (t, true)
      | Except.error e => ("Error analyzing chat with Claude: " ++ e, true)

/-! ### Helper lemmas -/

theorem mem_firstOccs {a : String} : ∀ {l : List String}, a ∈ firstOccs l ↔ a ∈ l
  | [] => by simp [firstOccs]
  | b :: l => by
    by_cases hab : a = b
    · subst hab
      simp [firstOccs]
    · simp only [firstOccs, List.mem_cons, List.mem_filter, mem_firstOccs (l := l)]
      constructor
      · rintro (h | ⟨h, _⟩)
        · exact Or.inl h
        · exact Or.inr h
      · rintro (h | h)
        · exact Or.inl h
        · exact Or.inr ⟨h, by simpa using hab⟩

theorem nodup_firstOccs : ∀ (l : List String), (firstOccs l).Nodup
  | [] => by simp [firstOccs]
  | b :: l => by
    refine List.nodup_cons.mpr ⟨?_, (nodup_firstOccs l).filter _⟩
    intro hb
    have := (List.mem_filter.mp hb).2
    simp at this

theorem length_firstOccs_eq_card (l : List String) :
    (firstOccs l).length = l.toFinset.card := by
  have hfin : (firstOccs l).toFinset = l.toFinset := by
    ext a
    simp [List.mem_toFinset, mem_firstOccs]
  rw [← hfin, List.toFinset_card_of_nodup (nodup_firstOccs l)]

/-! ### Claim C1 -/

/-- Claim C1 (counterexample): on the empty input sequence
`generate_chat_statistics` returns the bare empty dictionary (`none`), not
a populated summary record — no field `totalMessages = 0`,
`uniqueAuthors = 0`, … is present at all. -/
theorem empty_stats_no_populated_record :
    generate_chat_statistics ([] : List (MessageData Int)) = none := by
  rfl

/-- Claim C1 (amended): `generate_chat_statistics` returns the bare empty
dictionary (modelled as `none`) exactly on the empty input sequence, and a
populated summary record exactly on non-empty inputs. -/
theorem empty_stats_returns_empty_dict {τ : Type}
    (messages : List (MessageData τ)) :
    generate_chat_statistics messages = none ↔ messages = [] := by
  cases messages with
  | nil => simp [generate_chat_statistics]
  | cons m ms => simp [generate_chat_statistics]

/-! ### Claim C4 -/

/-- Two records sharing one display name but with two distinct author
channel ids. -/
def sameNameTwoIds : List (MessageData Int) :=
  [{ author := "X", message := "a", timestamp := 0,
     author_channel_id := "UC1", is_moderator := false, is_owner := false,
     is_verified := false, message_type := "textMessageEvent" },
   { author := "X", message := "b", timestamp := 0,
     author_channel_id := "UC2", is_moderator := false, is_owner := false,
     is_verified := false, message_type := "textMessageEvent" }]

/-- Claim C4 (counterexample): on two records with one display name but
two distinct `author_channel_id` values, the aggregator reports 1 unique
author while the input has 2 distinct `authorId` values — `unique_users`
is computed from display names even though `authorId` is present, refuting
the claimed `distinct authorId` semantics. -/
theorem unique_users_ignores_author_id :
    (generate_chat_statistics sameNameTwoIds).map ChatStats.unique_users =
      some 1
    ∧ (sameNameTwoIds.map fun m => m.author_channel_id).dedup.length = 2 := by
  constructor
  · rfl
  · decide

/-- Claim C4 (amended): `unique_users` is always the number of distinct
author display names in the input; the `author_channel_id` field plays no
role in it. -/
theorem unique_users_counts_distinct_names {τ : Type}
    (messages : List (MessageData τ)) :
    (generate_chat_statistics messages).map ChatStats.unique_users =
      if messages.isEmpty then none
      else some ((messages.map fun m => m.author).toFinset.card) := by
  cases messages with
  | nil => simp [generate_chat_statistics]
  | cons m ms =>
    simp [generate_chat_statistics, length_firstOccs_eq_card]

/-! ### Claims C9 and C10 -/

/-- A minimal concrete message record used to instantiate theorems. -/
def mkMsg (a : String) : MessageData Int :=
  { author := a, message := "m", timestamp := 0, author_channel_id := "UC0",
    is_moderator := false, is_owner := false, is_verified := false,
    message_type := "textMessageEvent" }

/-- A completion-service oracle that always raises. -/
def failCall : String → Except String String := fun _ => Except.error "boom"

/-- A completion-service oracle that always succeeds. -/
def okCall : String → Except String String := fun _ => Except.ok "fine"

/-- Claim C9: for a non-empty message sequence and a valid mode, a failing
remote completion call makes `analyze_with_claude` return the
human-readable error string as its ordinary `String` result (the `true`
flag records that the remote service was reached); the failure is never
re-raised to the caller. -/
theorem analyze_failure_returns_error_string {τ : Type}
    (call : String → Except String String)
    (messages : List (MessageData τ)) (analysis_type e : String)
    (hne : messages ≠ [])
    (hvalid : analysis_type ∈
      ["comprehensive", "questions", "sentiment", "themes"])
    (hfail : ∀ s, call s = Except.error e) :
    analyze_with_claude call messages analysis_type =
      ("Error analyzing chat with Claude: " ++ e, true) := by
  have hne' : messages.isEmpty = false := by
    simpa [List.isEmpty_iff] using hne
  simp only [List.mem_cons, List.not_mem_nil, or_false] at hvalid
  rcases hvalid with rfl | rfl | rfl | rfl <;>
    simp [analyze_with_claude, prompts, hne', List.lookup, hfail]

/-- Witness for C9 at a concrete failing oracle, one-message input and the
`sentiment` mode. -/
theorem analyze_failure_returns_error_string_witness :
    analyze_with_claude failCall [mkMsg "A"] "sentiment" =
      ("Error analyzing chat with Claude: " ++ "boom", true) :=
  analyze_failure_returns_error_string failCall [mkMsg "A"] "sentiment"
    "boom" (by decide) (by decide) (fun _ => rfl)

/-- Claim C10: for a non-empty message sequence and a mode outside the
four tags, `analyze_with_claude` does not raise: the `KeyError` from the
`prompts` lookup is caught by the same handler as remote failures and
converted to an error string (`str(KeyError(k))` is the key in single
quotes), and the remote completion service is never invoked (the `false`
flag). -/
theorem analyze_unknown_mode_no_remote_call {τ : Type}
    (call : String → Except String String)
    (messages : List (MessageData τ)) (analysis_type : String)
    (hne : messages ≠ [])
    (hinv : analysis_type ∉
      ["comprehensive", "questions", "sentiment", "themes"]) :
    analyze_with_claude call messages analysis_type =
      ("Error analyzing chat with Claude: " ++ "'" ++ analysis_type ++ "'",
        false) := by
  have hne' : messages.isEmpty = false := by
    simpa [List.isEmpty_iff] using hne
  simp only [List.mem_cons, List.not_mem_nil, or_false, not_or] at hinv
  obtain ⟨h1, h2, h3, h4⟩ := hinv
  have e1 := beq_eq_false_iff_ne.mpr h1
  have e2 := beq_eq_false_iff_ne.mpr h2
  have e3 := beq_eq_false_iff_ne.mpr h3
  have e4 := beq_eq_false_iff_ne.mpr h4
  simp [analyze_with_claude, prompts, hne', List.lookup, e1, e2, e3, e4]

/-- Witness for C10 at a concrete oracle, one-message input and the
unknown mode `bogus`. -/
theorem analyze_unknown_mode_no_remote_call_witness :
    analyze_with_claude okCall [mkMsg "A"] "bogus" =
      ("Error analyzing chat with Claude: " ++ "'" ++ "bogus" ++ "'",
        false) :=
  analyze_unknown_mode_no_remote_call okCall [mkMsg "A"] "bogus"
    (by decide) (by decide)

/-! ### Claim C5 -/

theorem splitFirstColon_eq : ∀ (l : List Char),
    splitFirstColon l =
      (l.takeWhile (· ≠ ':'), (l.dropWhile (· ≠ ':')).drop 1)
  | [] => rfl
  | c :: cs => by
    by_cases hc : c = ':'
    · subst hc
      simp [splitFirstColon, List.takeWhile, List.dropWhile]
    · simp [splitFirstColon, List.takeWhile, List.dropWhile, hc,
        splitFirstColon_eq cs]

/-- Claim C5: each manual-input line is split on its first colon with both
sides stripped (left author, right text); colon-free lines get the
synthesized author `User<i+1>`; and on the concrete input
`"Alice: hello\nBob: hi there\nnoColonLine"` the parser emits exactly the
three records `(Alice, hello)`, `(Bob, hi there)`, `(User3, noColonLine)`
in order with strictly increasing timestamps, while a line whose stripped
text is empty (`"A:"`) is discarded. -/
theorem manual_parsing_splits_first_colon :
    (∀ (i : Nat) (line : List Char),
      manualLineParts i line =
        if hasColon line then
          (pyStrip (line.takeWhile (· ≠ ':')),
            pyStrip ((line.dropWhile (· ≠ ':')).drop 1))
        else (("User" ++ toString (i + 1)).data, pyStrip line))
    ∧ (∀ (hashFn : String → Nat) (now : Int),
        ((collect_chat_manual_input hashFn
            "Alice: hello\nBob: hi there\nnoColonLine" now).map
          fun m => (m.author, m.message, m.timestamp)) =
          [("Alice", "hello", now - 3), ("Bob", "hi there", now - 2),
            ("User3", "noColonLine", now - 1)]
        ∧ List.Chain' (· < ·)
            ((collect_chat_manual_input hashFn
                "Alice: hello\nBob: hi there\nnoColonLine" now).map
              fun m => m.timestamp)
        ∧ ((collect_chat_manual_input hashFn "A:\nB: y" now).map
            fun m => (m.author, m.message)) = [("B", "y")]) := by
  constructor
  · intro i line
    simp only [manualLineParts, splitFirstColon_eq]
  · intro hashFn now
    refine ⟨rfl, ?_, rfl⟩
    have hts : ((collect_chat_manual_input hashFn
        "Alice: hello\nBob: hi there\nnoColonLine" now).map
          fun m => m.timestamp) = [now - 3, now - 2, now - 1] := rfl
    rw [hts]
    refine List.chain'_cons.mpr ⟨by omega, ?_⟩
    exact List.chain'_cons.mpr ⟨by omega, List.chain'_singleton _⟩

/-! ### Claim C8 -/

/-- A concrete stand-in for Python's process-randomized string hash. -/
def hashConst : String → Nat := fun _ => 0

theorem manualLoop_timestamp_shape (hashFn : String → Nat) (now : Int)
    (L : Nat) : ∀ (ls : List (List Char)) (i : Nat) (m : MessageData Int),
    m ∈ manualLoop hashFn now L i ls →
    ∃ j, i ≤ j ∧ j < i + ls.length ∧
      m.timestamp = now - ((L : Int) - (j : Int))
  | [], i, m => by simp [manualLoop]
  | line :: rest, i, m => by
    intro h
    simp only [manualLoop] at h
    by_cases hc : (manualLineParts i line).2 ≠ []
    · rw [if_pos hc] at h
      rcases List.mem_cons.mp h with rfl | h'
      · exact ⟨i, le_refl i, by simp, rfl⟩
      · obtain ⟨j, hij, hlt, hts⟩ :=
          manualLoop_timestamp_shape hashFn now L rest (i + 1) m h'
        exact ⟨j, by omega, by simp only [List.length_cons]; omega, hts⟩
    · rw [if_neg hc] at h
      obtain ⟨j, hij, hlt, hts⟩ :=
        manualLoop_timestamp_shape hashFn now L rest (i + 1) m h
      exact ⟨j, by omega, by simp only [List.length_cons]; omega, hts⟩

theorem manualLoop_timestamps_chain (hashFn : String → Nat) (now : Int)
    (L : Nat) : ∀ (ls : List (List Char)) (i : Nat),
    List.Chain' (· < ·)
      ((manualLoop hashFn now L i ls).map fun m => m.timestamp)
  | [], i => by simp [manualLoop]
  | line :: rest, i => by
    have ih := manualLoop_timestamps_chain hashFn now L rest (i + 1)
    simp only [manualLoop]
    by_cases hc : (manualLineParts i line).2 ≠ []
    · rw [if_pos hc]
      cases hrec : manualLoop hashFn now L (i + 1) rest with
      | nil => simp
      | cons m ms =>
        rw [hrec] at ih
        refine List.chain'_cons'.mpr ⟨?_, ih⟩
        intro b hb
        simp only [List.map_cons, List.head?_cons, Option.mem_def,
          Option.some.injEq] at hb
        subst hb
        have hm : m ∈ manualLoop hashFn now L (i + 1) rest := by
          rw [hrec]; exact List.mem_cons_self m ms
        obtain ⟨j, hij, _, hts⟩ :=
          manualLoop_timestamp_shape hashFn now L rest (i + 1) m hm
        rw [hts]
        show now - ((L : Int) - (i : Int)) < now - ((L : Int) - (j : Int))
        omega
    · rw [if_neg hc]
      exact ih

/-- Claim C8 (counterexample): for the single-line input `"A: x"` collected
at time `now = 0`, the last (and only) emitted record has timestamp
`-1`, one time unit before the collection time, so the synthesized
timestamps do not end at "now". -/
theorem manual_timestamps_do_not_end_at_now :
    ((collect_chat_manual_input hashConst "A: x" 0).getLast?).map
        (fun m => m.timestamp) = some (-1)
    ∧ ((-1 : Int) ≠ 0) := by
  constructor
  · rfl
  · decide

/-- Claim C8 (amended): manual-input timestamps strictly increase in input
line order (line `i` of `L` lines gets `now - (L - i)`, so consecutive
emitted records are at least one unit apart, exactly one when no line
between them is discarded), and every emitted timestamp is at least one
time unit before the collection time — the sequence ends one unit before
"now" when the final line is emitted, not at "now". -/
theorem manual_timestamps_increasing_and_past (hashFn : String → Nat)
    (input : String) (now : Int) :
    List.Chain' (· < ·)
      ((collect_chat_manual_input hashFn input now).map fun m => m.timestamp)
    ∧ ∀ m ∈ collect_chat_manual_input hashFn input now,
        m.timestamp ≤ now - 1 := by
  unfold collect_chat_manual_input
  by_cases h : input = ""
  · simp [h]
  · rw [if_neg h]
    refine ⟨manualLoop_timestamps_chain hashFn now _ _ 0, ?_⟩
    intro m hm
    obtain ⟨j, _, hjlt, hts⟩ :=
      manualLoop_timestamp_shape hashFn now _ _ 0 m hm
    rw [hts]
    omega

/-- Witness for the amended C8 at the concrete input `"A: x"` and
collection time `0`: the emitted record's timestamp is at most `-1`. -/
theorem manual_timestamps_increasing_and_past_witness :
    List.Chain' (· < ·)
      ((collect_chat_manual_input hashConst "A: x" 0).map
        fun m => m.timestamp)
    ∧ (manualRecord hashConst 0 1 0 ("A".data) ("x".data)).timestamp ≤
        0 - 1 :=
  ⟨(manual_timestamps_increasing_and_past hashConst "A: x" 0).1,
    (manual_timestamps_increasing_and_past hashConst "A: x" 0).2
      (manualRecord hashConst 0 1 0 ("A".data) ("x".data)) (by decide)⟩

/-! ### Claim C2 -/

/-- The remote API's documented contract for the `maxResults` parameter: a
page never carries more items than were requested. -/
def HonorsMaxResults (src : PageSource) : Prop :=
  ∀ tok k resp items, src tok k = some resp → resp.items = some items →
    items.length ≤ k

theorem collectLoop_length_le (src : PageSource)
    (hsrc : HonorsMaxResults src) (maxMessages : Nat) :
    ∀ (fuel : Nat) (token : Option Nat) (acc : List (MessageData String))
      (reqs : Nat), acc.length ≤ maxMessages →
      (collectLoop src maxMessages fuel token acc reqs).1.length ≤
        maxMessages
  | 0, _, acc, reqs => fun hacc => hacc
  | fuel + 1, token, acc, reqs => by
    intro hacc
    simp only [collectLoop]
    split
    · rename_i hlt
      split
      · exact hacc
      · rename_i resp heq
        split
        · exact hacc
        · rename_i items heqi
          have hlen : items.length ≤ min 200 (maxMessages - acc.length) :=
            hsrc _ _ _ _ heq heqi
          have hacc' :
              (acc ++ items.map apiItemToMessage).length ≤ maxMessages := by
            simp only [List.length_append, List.length_map]
            omega
          split
          · exact hacc'
          · exact collectLoop_length_le src hsrc maxMessages fuel
              _ _ (reqs + 1) hacc'
    · exact hacc

theorem manualLoop_length_le (hashFn : String → Nat) (now : Int) (L : Nat) :
    ∀ (ls : List (List Char)) (i : Nat),
      (manualLoop hashFn now L i ls).length ≤ ls.length
  | [], _ => by simp [manualLoop]
  | line :: rest, i => by
    have ih := manualLoop_length_le hashFn now L rest (i + 1)
    simp only [manualLoop, List.length_cons]
    by_cases hc : (manualLineParts i line).2 ≠ []
    · rw [if_pos hc]
      simp only [List.length_cons]
      omega
    · rw [if_neg hc]
      omega

/-- Claim C2: provided the remote API honours the `maxResults` bound it is
sent, Source A collects at most `N` messages for every target `N`, chat
handle, page source and fuel; Source C emits at most one record per input
line; and Source B produces exactly `N` records.  No source exceeds the
request bound. -/
theorem collector_length_bounds (src : PageSource)
    (hsrc : HonorsMaxResults src) (hasApiKey : Bool)
    (chatId : Option String) (N fuel : Nat) (hashFn : String → Nat)
    (input : String) (now : Int) (rng : SimRand) :
    (collect_chat_with_api hasApiKey chatId src N fuel).1.length ≤ N
    ∧ (collect_chat_manual_input hashFn input now).length ≤
        (splitNewlines (pyStrip input.data)).length
    ∧ (simulate_chat_data rng now N).length = N := by
  refine ⟨?_, ?_, ?_⟩
  · unfold collect_chat_with_api
    cases hasApiKey with
    | false => simp
    | true =>
      cases chatId with
      | none => simp
      | some c =>
        simpa using
          collectLoop_length_le src hsrc N fuel none [] 0 (by simp)
  · unfold collect_chat_manual_input
    by_cases h : input = ""
    · simp [h]
    · rw [if_neg h]
      exact manualLoop_length_le hashFn now _ _ 0
  · simp [simulate_chat_data]

/-- A page source whose transport always raises; it vacuously honours any
`maxResults` bound. -/
def nullSrc : PageSource := fun _ _ => none

/-- A concrete randomness oracle for the synthetic generator. -/
def simRandZero : SimRand :=
  { userIdx := fun _ => 0, msgIdx := fun _ => 0, minuteOff := fun _ => 0,
    chanId := fun _ => 0, modGate := fun _ => false,
    modChoice := fun _ => false, verGate := fun _ => false,
    verChoice := fun _ => false }

/-- Witness for C2 at concrete sources: the failing transport, the
one-line manual input `"A: x"` and a four-message synthetic run. -/
theorem collector_length_bounds_witness :
    (collect_chat_with_api true (some "chat") nullSrc 5 9).1.length ≤ 5
    ∧ (collect_chat_manual_input hashConst "A: x" 0).length ≤
        (splitNewlines (pyStrip "A: x".data)).length
    ∧ (simulate_chat_data simRandZero 0 5).length = 5 :=
  collector_length_bounds nullSrc
    (fun _ _ _ _ h _ => Option.noConfusion h) true (some "chat") 5 9
    hashConst "A: x" 0 simRandZero

/-! ### Claim C6 -/

/-- An API item whose every optional field is absent; in particular it has
no `displayMessage`, so the collector's `.get('displayMessage', '')`
produces the empty string. -/
def bareItem : ApiItem :=
  { displayName := none, displayMessage := none, publishedAt := none,
    channelId := none, isChatModerator := none, isChatOwner := none,
    isVerified := none, itemType := none }

/-- A page source returning a single final page holding one bare item. -/
def srcNoText : PageSource :=
  fun _ _ => some { items := some [bareItem], nextPageToken := none }

/-- Claim C6 (counterexample): the API collector (Source A) performs no
empty-text filtering — against a page whose single item lacks
`displayMessage` it emits one record whose `message` is the empty string,
so the aggregator can receive empty-text records. -/
theorem api_collector_emits_empty_text :
    ((collect_chat_with_api true (some "chat") srcNoText 10 5).1.map
      fun m => m.message) = [""] := by
  rfl

theorem manualLoop_message_nonempty (hashFn : String → Nat) (now : Int)
    (L : Nat) : ∀ (ls : List (List Char)) (i : Nat) (m : MessageData Int),
    m ∈ manualLoop hashFn now L i ls → m.message ≠ ""
  | [], _, m => by simp [manualLoop]
  | line :: rest, i, m => by
    intro h
    simp only [manualLoop] at h
    by_cases hc : (manualLineParts i line).2 ≠ []
    · rw [if_pos hc] at h
      rcases List.mem_cons.mp h with rfl | h'
      · intro heq
        exact hc (congrArg String.data heq)
      · exact manualLoop_message_nonempty hashFn now L rest (i + 1) m h'
    · rw [if_neg hc] at h
      exact manualLoop_message_nonempty hashFn now L rest (i + 1) m h

theorem simRecord_message_nonempty (rng : SimRand) (now : Int) (i : Nat) :
    (simRecord rng now i).message ≠ "" := by
  have hball : ∀ j, j < 30 → sample_messages.getD j "" ≠ "" := by decide
  exact hball (rng.msgIdx i % 30) (Nat.mod_lt _ (by decide))

/-- Claim C6 (amended): empty-text records are excluded at collection time
by Source C (the manual parser discards them) and cannot arise from Source
B (every synthetic template is non-empty), but Source A does not filter:
it copies `displayMessage` verbatim, defaulting to the empty string when
the field is absent, so API-sourced records may carry empty text. -/
theorem collected_text_nonempty_b_c_not_a :
    (∀ (hashFn : String → Nat) (input : String) (now : Int)
        (m : MessageData Int),
        m ∈ collect_chat_manual_input hashFn input now → m.message ≠ "")
    ∧ (∀ (rng : SimRand) (now : Int) (N : Nat) (m : MessageData Int),
        m ∈ simulate_chat_data rng now N → m.message ≠ "")
    ∧ ((collect_chat_with_api true (some "chat") srcNoText 10 5).1.map
        fun m => m.message) = [""] := by
  refine ⟨?_, ?_, rfl⟩
  · intro hashFn input now m hm
    unfold collect_chat_manual_input at hm
    by_cases h : input = ""
    · simp [h] at hm
    · rw [if_neg h] at hm
      exact manualLoop_message_nonempty hashFn now _ _ 0 m hm
  · intro rng now N m hm
    simp only [simulate_chat_data, List.mem_map, List.mem_range] at hm
    obtain ⟨i, _, rfl⟩ := hm
    exact simRecord_message_nonempty rng now i

/-- Witness for the amended C6 at one concrete record of Source C and one
of Source B. -/
theorem collected_text_nonempty_b_c_not_a_witness :
    (manualRecord hashConst 0 1 0 ("A".data) ("x".data)).message ≠ ""
    ∧ (simRecord simRandZero 0 0).message ≠ "" :=
  ⟨collected_text_nonempty_b_c_not_a.1 hashConst "A: x" 0
      (manualRecord hashConst 0 1 0 ("A".data) ("x".data)) (by decide),
    collected_text_nonempty_b_c_not_a.2.1 simRandZero 0 1
      (simRecord simRandZero 0 0) (by decide)⟩

/-! ### Claim C3 -/

/-- A mocked page source over `total` available messages: every page holds
up to 200 items (truncated to the requested `maxResults` and to what
remains past the token's offset) and carries a continuation token until
the final page. -/
def mockPages (total : Nat) : PageSource := fun tok k =>
  let off := tok.getD 0
  let n := min k (min 200 (total - off))
  some { items := some (List.replicate n bareItem),
         nextPageToken := if off + n < total then some (off + n) else none }

set_option maxRecDepth 100000 in
/-- Claim C3: against a mocked 500-message source paged 200 at a time,
collecting with `N = 350` returns exactly 350 records after exactly 2 page
requests, and collecting with `N = 1000` returns the 500 available
records — fewer than 1000 — once the continuation tokens run out, with no
failure. -/
theorem page_loop_termination :
    (collect_chat_with_api true (some "chat") (mockPages 500) 350 10).1.length
        = 350
    ∧ (collect_chat_with_api true (some "chat") (mockPages 500) 350 10).2 = 2
    ∧ (collect_chat_with_api true (some "chat") (mockPages 500) 1000 10).1.length
        = 500
    ∧ (collect_chat_with_api true (some "chat") (mockPages 500) 1000 10).1.length
        < 1000 := by
  refine ⟨rfl, rfl, rfl, by decide⟩

/-! ### Claim C7 -/

theorem mem_insertDesc {x y : String × Nat} :
    ∀ {l : List (String × Nat)}, x ∈ insertDesc y l ↔ x = y ∨ x ∈ l
  | [] => by simp [insertDesc]
  | z :: l => by
    simp only [insertDesc]
    by_cases h : z.2 < y.2
    · rw [if_pos h]
      simp [List.mem_cons]
    · rw [if_neg h]
      simp only [List.mem_cons, mem_insertDesc (l := l)]
      tauto

theorem pairwise_insertDesc (y : String × Nat) :
    ∀ (l : List (String × Nat)),
      l.Pairwise (fun p q => q.2 ≤ p.2) →
      (insertDesc y l).Pairwise (fun p q => q.2 ≤ p.2)
  | [], _ => List.pairwise_singleton _ _
  | z :: l, h => by
    obtain ⟨hz, hl⟩ := List.pairwise_cons.mp h
    simp only [insertDesc]
    by_cases hc : z.2 < y.2
    · rw [if_pos hc]
      refine List.pairwise_cons.mpr ⟨?_, h⟩
      intro q hq
      rcases List.mem_cons.mp hq with rfl | hq'
      · omega
      · have := hz q hq'
        omega
    · rw [if_neg hc]
      refine List.pairwise_cons.mpr ⟨?_, pairwise_insertDesc y l hl⟩
      intro q hq
      rcases mem_insertDesc.mp hq with rfl | hq'
      · omega
      · exact hz q hq'

theorem pairwise_foldl_insertDesc :
    ∀ (ps : List (String × Nat)) (acc : List (String × Nat)),
      acc.Pairwise (fun p q => q.2 ≤ p.2) →
      (ps.foldl (fun a p => insertDesc p a) acc).Pairwise
        (fun p q => q.2 ≤ p.2)
  | [], _, h => h
  | p :: ps, acc, h =>
    pairwise_foldl_insertDesc ps (insertDesc p acc)
      (pairwise_insertDesc p acc h)

theorem authorValueCounts_sorted (authors : List String) :
    (authorValueCounts authors).Pairwise (fun p q => q.2 ≤ p.2) :=
  pairwise_foldl_insertDesc _ [] List.Pairwise.nil

/-- Thirteen records realizing the author counts `A:5, B:5, C:3` with `A`
appearing before `B`. -/
def tieExample : List (MessageData Int) :=
  ["A", "B", "A", "C", "B", "A", "B", "C", "A", "B", "A", "B", "C"].map
    mkMsg

/-- Claim C7: `top_chatters` always has at most 10 entries and is ordered
by non-increasing message count, and on an input realizing counts
`A:5, B:5, C:3` with `A` appearing first the tie between `A` and `B` is
broken by first appearance: `A` ranks above `B`. -/
theorem top_chatters_bounded_sorted_stable :
    (∀ (τ : Type) (messages : List (MessageData τ)) (s : ChatStats),
      generate_chat_statistics messages = some s →
      s.top_chatters.length ≤ 10
      ∧ s.top_chatters.Pairwise (fun p q => q.2 ≤ p.2))
    ∧ (generate_chat_statistics tieExample).map ChatStats.top_chatters =
        some [("A", 5), ("B", 5), ("C", 3)] := by
  constructor
  · intro τ messages s h
    unfold generate_chat_statistics at h
    by_cases he : messages.isEmpty
    · rw [if_pos he] at h
      exact absurd h (by simp)
    · rw [if_neg he] at h
      have hs : s.top_chatters =
          (authorValueCounts (messages.map fun m => m.author)).take 10 := by
        have := Option.some.inj h
        rw [← this]
      rw [hs]
      constructor
      · simp only [List.length_take]
        exact min_le_left 10 _
      · exact (authorValueCounts_sorted _).sublist (List.take_sublist _ _)
  · decide

/-- Witness for C7 at a concrete one-message input. -/
theorem top_chatters_bounded_sorted_stable_witness :
    ((generate_chat_statistics [mkMsg "A"]).get rfl).top_chatters.length ≤ 10
    ∧ ((generate_chat_statistics [mkMsg "A"]).get
        rfl).top_chatters.Pairwise (fun p q => q.2 ≤ p.2) :=
  top_chatters_bounded_sorted_stable.1 Int [mkMsg "A"]
    ((generate_chat_statistics [mkMsg "A"]).get rfl)
    (Option.some_get (rfl :
      (generate_chat_statistics [mkMsg "A"]).isSome = true)).symm
